import Mathlib

/-!
Formal model of the sendsms-fastapi bulk dispatch engine.

The Python sources are embedded shallowly: every HTTP transport becomes an
explicit function parameter from request data to an abstract response,
coroutine results become plain values, a raised exception becomes
`Except.error`, and the `asyncio.gather(..., return_exceptions=True)`
collection becomes a list of `Except` values in task submission order.
-/

/-- Response of one HTTP POST as seen by the Python client code: a
status/body pair, an `aiohttp.ClientError`, or any other raised exception. -/
inductive HttpResponse where
  | resp (status : Nat) (body : String)
  | clientError (msg : String)
  | exn (msg : String)
deriving DecidableEq

/-- One template-component parameter (async_api_functions.py builds either
`{"type": "text", "text": ...}` or `{"type": <media>, <media>: {"id": ...}}`). -/
inductive Param where
  | text (s : String)
  | media (kind : String) (id : String)
deriving DecidableEq

/-- One entry of the template `components` array. -/
structure Component where
  type : String
  sub_type : Option String
  index : Option String
  parameters : List Param
deriving DecidableEq

/-- The JSON body POSTed by send_message / send_otp_message. -/
structure MsgPayload where
  «to» : String
  template_name : String
  language : String
  components : List Component
  context_message_id : String
deriving DecidableEq

/-- Provider messaging endpoint for one phone-number id
(`f"https://graph.facebook.com/v20.0/{phone_number_id}/messages"`). -/
def providerUrl (phone_number_id : String) : String :=
  "https://graph.facebook.com/v20.0/" ++ phone_number_id ++ "/messages"

/-- A recorded outbound POST: URL and JSON payload. -/
structure PostRecord where
  url : String
  payload : MsgPayload
deriving DecidableEq

/-- Deterministic transport: maps (url, payload) to the observed response. -/
abbrev Transport := String → MsgPayload → HttpResponse

/-- `error_code` field of a failed outcome: either the numeric HTTP status or
the string `"client_error"`. -/
inductive ErrCode where
  | status (code : Nat)
  | clientError
deriving DecidableEq

/-- The result dictionaries returned by send_message / send_otp_message. -/
inductive Outcome where
  | success (contact message_id response : String)
  | failed (contact : String) (error_code : ErrCode) (error_message : String)
deriving DecidableEq

/-- The `"status"` field of an outcome dictionary. -/
def Outcome.status : Outcome → String
  | .success .. => "success"
  | .failed .. => "failed"

/-- One entry of the dispatcher's `results` list: either a returned outcome
dictionary or an exception captured by `asyncio.gather(return_exceptions=True)`. -/
abbrev ResultEntry := Except String Outcome

/-- Status string of one results entry: outcome status, or `"exception"` for a
captured exception object. -/
def entryStatus : ResultEntry → String
  | .ok o => o.status
  | .error _ => "exception"

/-- `json.dumps({"template_name": ..., "language": ..., "media_type": ...})`. -/
def contextInfo (template_name language media_type : String) : String :=
  "\x7b\"template_name\": \"" ++ template_name ++ "\", \"language\": \"" ++ language ++
    "\", \"media_type\": \"" ++ media_type ++ "\"\x7d"

/-- `f"template_{template_name}_{context_info}"`. -/
def msgContextId (template_name language media_type : String) : String :=
  "template_" ++ template_name ++ "_" ++ contextInfo template_name language media_type

/-- One csv row: `[contact, v1, v2, ...]`. -/
abbrev Row := List String

/-- `if csv_variable_list: contact = str(csv_variable_list[0])` — a non-empty
csv row overrides the contact. -/
def effContact (contact : String) (csv : Option Row) : String :=
  match csv with
  | some (c :: _) => c
  | _ => contact

/-- `if csv_variable_list: «variables» = csv_variable_list[1:]` — a non-empty
csv row overrides the shared variable list. -/
def effVariables («variables» : Option (List String)) (csv : Option Row) : Option (List String) :=
  match csv with
  | some (_ :: rest) => some rest
  | _ => «variables»

/-- `if «variables»: body_component["parameters"] = [{"type": "text", "text": v}, ...]`
(`«variables»` falsy — None or empty — leaves the parameters empty). -/
def bodyParams («variables» : Option (List String)) : List Param :=
  match «variables» with
  | some l => if l.isEmpty then [] else l.map Param.text
  | none => []

/-- `if media_id and media_type in ["IMAGE","DOCUMENT","VIDEO","AUDIO"]: ...`
(a None or empty media_id is falsy). -/
def headerParams (media_type : String) (media_id : Option String) : List Param :=
  match media_id with
  | some m =>
      if m ≠ "" ∧ media_type ∈ (["IMAGE", "DOCUMENT", "VIDEO", "AUDIO"] : List String)
      then [Param.media media_type.toLower m]
      else []
  | none => []

/-- The payload built by async_api_functions.send_message before its POST. -/
def send_message_payload (template_name language media_type : String)
    (media_id : Option String) (contact : String) («variables» : Option (List String))
    (csv_variable_list : Option Row) : MsgPayload :=
  { «to» := effContact contact csv_variable_list
    template_name := template_name
    language := language
    components :=
      [ ⟨"header", none, none, headerParams media_type media_id⟩
      , ⟨"body", none, none, bodyParams (effVariables «variables» csv_variable_list)⟩ ]
    context_message_id := msgContextId template_name language media_type }

/-- async_api_functions.send_message: exactly one POST, whose response is
mapped to an outcome dictionary; `aiohttp.ClientError` is caught and mapped to
a failed outcome with `error_code = "client_error"`, any other exception
propagates to the caller.  The second component records the POSTs issued. -/
def send_message (t : Transport) (token phone_number_id template_name language media_type : String)
    (media_id : Option String) (contact : String) («variables» : Option (List String))
    (csv_variable_list : Option Row) : Except String Outcome × List PostRecord :=
  let p := send_message_payload template_name language media_type media_id contact «variables» csv_variable_list
  let url := providerUrl phone_number_id
  match t url p with
  | .resp s body =>
    if s = 200 then (.ok (.success p.«to» (msgContextId template_name language media_type) body), [⟨url, p⟩])
    else (.ok (.failed p.«to» (.status s) body), [⟨url, p⟩])
  | .clientError m => (.ok (.failed p.«to» .clientError m), [⟨url, p⟩])
  | .exn m => (.error m, [⟨url, p⟩])

/-- async_api_functions.send_otp_message.  Builds header and body components,
then reads `«variables»[0]` for the button component: when `«variables»` is None
this raises a TypeError, when it is the empty list an IndexError — in both
cases the exception is raised before any POST is issued (the recorded POST
list stays empty). -/
def send_otp_message (t : Transport) (token phone_number_id template_name language media_type : String)
    (media_id : Option String) (contact : String) («variables» : Option (List String))
    (csv_variable_list : Option Row) : Except String Outcome × List PostRecord :=
  let c := effContact contact csv_variable_list
  let vars := effVariables «variables» csv_variable_list
  let headerC : Component := ⟨"header", none, none, headerParams media_type media_id⟩
  let bodyC : Component := ⟨"body", none, none, bodyParams vars⟩
  match vars with
  | none => (.error "TypeError: NoneType object is not subscriptable", [])
  | some [] => (.error "IndexError: list index out of range", [])
  | some (v0 :: _) =>
    let buttonC : Component := ⟨"button", some "url", some "0", [Param.text v0]⟩
    let p : MsgPayload :=
      { «to» := c
        template_name := template_name
        language := language
        components := [headerC, bodyC, buttonC]
        context_message_id := msgContextId template_name language media_type }
    let url := providerUrl phone_number_id
    match t url p with
    | .resp s body =>
      if s = 200 then (.ok (.success c ("template_" ++ template_name) body), [⟨url, p⟩])
      else (.ok (.failed c (.status s) body), [⟨url, p⟩])
    | .clientError m => (.ok (.failed c .clientError m), [⟨url, p⟩])
    | .exn m => (.error m, [⟨url, p⟩])

/-- async_chunk_functions.chunks (and the identical main.chunks):
`for i in range(0, len(lst), size): yield lst[i:i+size]`.
`range(0, n, size)` enumerates `⌈n/size⌉` start indices.  `size` is 78 or 75
at every call site; `size = 0` would raise ValueError in Python and is never
used. -/
def chunks (lst : List α) (size : Nat) : List (List α) :=
  (List.range ((lst.length + size - 1) / size)).map fun i => (lst.drop (i * size)).take size

/-- Number of batches `chunks` yields for a list of length `n` and size 78. -/
def chunkCount78 (n : Nat) : Nat := (n + 77) / 78

/-- Per-job configuration threaded unchanged through the dispatcher
(async_chunk_functions.send_messages parameters other than the contact and
csv lists). -/
structure SendCfg where
  token : String
  phone_number_id : String
  template_name : String
  language : String
  media_type : String
  media_id : Option String
  variable_list : Option (List String)

/-- One send task of async_chunk_functions.send_messages:
`send_func = send_otp_message if media_type == "OTP" else send_message`,
called with `media_type="TEXT" if media_type == "OTP" else media_type` and the
shared `variable_list` plus this contact's csv row (if any).  The value is the
task's result as collected by `asyncio.gather(return_exceptions=True)`:
a returned outcome dictionary, or the exception the task raised. -/
def sendOne (t : Transport) (cfg : SendCfg) (contact : String) (csv_row : Option Row) : ResultEntry :=
  if cfg.media_type = "OTP" then
    (send_otp_message t cfg.token cfg.phone_number_id cfg.template_name cfg.language
      "TEXT" cfg.media_id contact cfg.variable_list csv_row).1
  else
    (send_message t cfg.token cfg.phone_number_id cfg.template_name cfg.language
      cfg.media_type cfg.media_id contact cfg.variable_list csv_row).1

/-- The `(contact, csv_variable_list)` pairs of one batch's task-building loop:
`for idx, contact in enumerate(contact_batch):
   csv_variable_list = variable_batch[idx] if variable_batch else None`.
When `variable_batch` is truthy but shorter than `contact_batch`, the loop hits
`variable_batch[idx]` with `idx` out of range and raises an IndexError inside
send_messages itself (outside the try around `gather`). -/
def pairContacts (contact_batch : List String) (variable_batch : Option (List Row)) :
    Except String (List (String × Option Row)) :=
  match variable_batch with
  | none => .ok (contact_batch.map fun c => (c, none))
  | some rows =>
    if rows.isEmpty then .ok (contact_batch.map fun c => (c, none))
    else if contact_batch.length ≤ rows.length then
      .ok ((contact_batch.zip rows).map fun p => (p.1, some p.2))
    else .error "IndexError: list index out of range"

/-- The batch iterator of async_chunk_functions.send_messages:
`zip(chunks(contact_list, 78), chunks(csv_variables, 78))` when
`csv_variables` is truthy, else `((batch, None) for batch in chunks(contact_list, 78))`.
Python's `zip` truncates to the shorter of the two chunk streams. -/
def batchPairs (contact_list : List String) (csv_variables : Option (List Row)) :
    List (List String × Option (List Row)) :=
  match csv_variables with
  | some rows =>
    if rows.isEmpty then (chunks contact_list 78).map fun b => (b, none)
    else ((chunks contact_list 78).zip (chunks rows 78)).map fun p => (p.1, some p.2)
  | none => (chunks contact_list 78).map fun b => (b, none)

/-- The batch loop of async_chunk_functions.send_messages: per batch, build the
task list (possibly raising an IndexError), gather the task results in
submission order with `return_exceptions=True`, and extend `results`.  A raised
IndexError propagates out of the loop and of send_messages (the surrounding
`try` only wraps the already-safe `gather`). -/
def dispatchBatches (t : Transport) (cfg : SendCfg) :
    List (List String × Option (List Row)) → Except String (List ResultEntry)
  | [] => .ok []
  | (cb, vb) :: rest => do
    let pairs ← pairContacts cb vb
    let batchResults := pairs.map fun p => sendOne t cfg p.1 p.2
    let restResults ← dispatchBatches t cfg rest
    return batchResults ++ restResults

/-- async_chunk_functions.send_messages.  Returns the accumulated `results`
list (or the uncaught exception raised while pairing a batch).  The final
`await notify_user(results, unique_id, request_id)` is modelled separately by
`notify_user` below; it never raises and does not alter `results`. -/
def send_messages (t : Transport)
    (token phone_number_id template_name language media_type : String)
    (media_id : Option String) (contact_list : List String)
    (variable_list : Option (List String)) (csv_variables : Option (List Row)) :
    Except String (List ResultEntry) :=
  dispatchBatches t
    ⟨token, phone_number_id, template_name, language, media_type, media_id, variable_list⟩
    (batchPairs contact_list csv_variables)

/-- The webhook URL notify_user posts to (module constant WEBHOOK_URL). -/
def WEBHOOK_URL : String := "https://wtsdealnow.com/notify_user/"

/-- The JSON envelope notify_user sends:
`{"status": "completed", "unique_id": unique_id, "report_id": report_id}`. -/
structure NotifyPayload where
  status : String
  unique_id : String
  report_id : Option String
deriving DecidableEq

/-- A recorded webhook POST. -/
structure NotifyPost where
  url : String
  payload : NotifyPayload
deriving DecidableEq

/-- async_api_functions.notify_user.  The `results` parameter is accepted but
never placed in the outbound payload; the whole body sits in a
`try/except Exception` that logs and swallows every failure (non-200 response,
client error, any other exception), so the coroutine always returns normally
after exactly one POST to WEBHOOK_URL. -/
def notify_user (t : NotifyPayload → HttpResponse) (results : List ResultEntry)
    (unique_id : String) (report_id : Option String) :
    Except String Unit × List NotifyPost :=
  let payload : NotifyPayload := ⟨"completed", unique_id, report_id⟩
  let posts : List NotifyPost := [⟨WEBHOOK_URL, payload⟩]
  match t payload with
  | .resp s _ =>
    -- 200 logs success, anything else logs the failure; both are swallowed
    if s = 200 then (.ok (), posts) else (.ok (), posts)
  | .clientError _ => (.ok (), posts)
  | .exn _ => (.ok (), posts)

/-- The plain-text payload of async_api_functions.validate_nums. -/
structure TextPayload where
  «to» : String
  preview_url : Bool
  body : String
deriving DecidableEq

/-- The result dictionaries of async_api_functions.validate_nums:
`{"status": "success"|"failed", "response_text": ...}` or
`{"status": "error", "message": ...}`. -/
inductive VOutcome where
  | success (response_text : String)
  | failed (response_text : String)
  | error (message : String)
deriving DecidableEq

/-- The `"status"` field of a validate_nums result. -/
def VOutcome.status : VOutcome → String
  | .success _ => "success"
  | .failed _ => "failed"
  | .error _ => "error"

/-- async_api_functions.validate_nums: one POST; 200 maps to a success
dictionary, any other status to a failed dictionary, and — unlike
send_message — a blanket `except Exception` maps EVERY raised exception
(client error or otherwise) to `{"status": "error", "message": str(e)}`. -/
def validate_nums (t : String → TextPayload → HttpResponse)
    (token phone_number_id contact message_text : String) : VOutcome :=
  let payload : TextPayload := ⟨contact, false, message_text⟩
  match t (providerUrl phone_number_id) payload with
  | .resp s body => if s = 200 then .success body else .failed body
  | .clientError m => .error m
  | .exn m => .error m

/-- An opaque IEEE float forwarded verbatim (latitude/longitude); the source
never computes with it, so it is modelled by its literal. -/
structure PyFloat where
  lit : String
deriving DecidableEq

/-- A JSON value, used for the heterogeneous dictionaries built by
send_bot_message. -/
inductive JVal where
  | s (v : String)
  | b (v : Bool)
  | f (v : PyFloat)
  | nullv
  | arr (xs : List JVal)
  | obj (fields : List (String × JVal))

/-- Direct embedding of a possibly-None string value. -/
def jStrOrNull : Option String → JVal
  | some v => .s v
  | none => .nullv

/-- `x if x else None` for an optional string (None and "" are falsy). -/
def jIfTruthy : Option String → JVal
  | some st => if st = "" then .nullv else .s st
  | none => .nullv

/-- `{"text": x} if x else None` for an optional string. -/
def jTextObjIfTruthy : Option String → JVal
  | some st => if st = "" then .nullv else .obj [("text", .s st)]
  | none => .nullv

/-- `{"type": "text", "text": x} if x else None` for an optional string. -/
def jHeaderTextIfTruthy : Option String → JVal
  | some st => if st = "" then .nullv else .obj [("type", .s "text"), ("text", .s st)]
  | none => .nullv

/-- A forwarded optional JSON value (None becomes null). -/
def jOpt : Option JVal → JVal
  | some v => v
  | none => .nullv

/-- A forwarded optional float. -/
def jFloatOrNull : Option PyFloat → JVal
  | some v => .f v
  | none => .nullv

/-- Dictionary lookup on a JSON object field list. -/
def jLookup (fields : List (String × JVal)) (k : String) : Option JVal :=
  (fields.find? fun p => p.1 == k).map fun p => p.2

/-- Whether a JSON object has a field named `k`. -/
def hasKey (v : JVal) (k : String) : Bool :=
  match v with
  | .obj fields => fields.any fun p => p.1 == k
  | _ => false

/-- Payload of the interactive-video case in the SECOND `"video"` branch of
send_bot_message (async_api_functions.py line 547 / main.py line 288) — the
payload that branch WOULD build if it were reachable. -/
def interactive_video_payload (contact : String) (body : Option String)
    (media_id : Option String) : JVal :=
  .obj [ ("messaging_product", .s "whatsapp"), ("to", .s contact)
       , ("type", .s "interactive")
       , ("interactive", .obj
           [ ("type", .s "text")
           , ("header", .obj [("type", .s "video"), ("video", .obj [("id", jStrOrNull media_id)])])
           , ("body", jTextObjIfTruthy body) ]) ]

/-- The payload construction of send_bot_message (identical in
async_api_functions.py and main.py).  The branches are one `if/elif` chain on
`message_type`: the FIRST matching branch runs, so the second
`elif message_type == "video"` arm is unreachable; it is nevertheless written
below, mirroring the source.  The `single_product_message` branch dereferences
`product_data["product_retailer_id"]` and raises when `product_data` is None or
lacks the key.  Unmatched message types leave the base payload
`{"messaging_product": ..., "to": ..., "type": "interactive"}` untouched. -/
def send_bot_payload (contact message_type : String) (header body footer : Option String)
    (button_data : Option JVal) (product_data : Option (List (String × JVal)))
    (catalog_id : Option String) (sections : Option JVal)
    (latitude longitude : Option PyFloat) (media_id : Option String) :
    Except String JVal :=
  let mp := ("messaging_product", JVal.s "whatsapp")
  let toF := ("to", JVal.s contact)
  if message_type = "text" then
    .ok (.obj [mp, toF, ("type", .s "text"),
      ("text", .obj [("preview_url", .b false), ("body", jStrOrNull body)])])
  else if message_type = "image" then
    .ok (.obj [mp, toF, ("type", .s "image"),
      ("image", .obj [("id", jStrOrNull media_id), ("caption", jIfTruthy body)])])
  else if message_type = "document" then
    .ok (.obj [mp, toF, ("type", .s "document"),
      ("document", .obj [("id", jStrOrNull media_id), ("caption", jIfTruthy body),
        ("filename", match header with
          | some h => if h = "" then .s "document" else .s h
          | none => .s "document")])])
  else if message_type = "video" then
    .ok (.obj [mp, toF, ("type", .s "video"),
      ("video", .obj [("id", jStrOrNull media_id), ("caption", jIfTruthy body)])])
  else if message_type = "video" then
    .ok (interactive_video_payload contact body media_id)
  else if message_type = "list_message" then
    .ok (.obj [mp, toF, ("type", .s "interactive"),
      ("interactive", .obj
        [ ("type", .s "list"), ("header", jHeaderTextIfTruthy header)
        , ("body", .obj [("text", jStrOrNull body)])
        , ("footer", jTextObjIfTruthy footer)
        , ("action", .obj [("button", .s "Choose an option"), ("sections", jOpt sections)]) ])])
  else if message_type = "reply_button_message" then
    .ok (.obj [mp, toF, ("type", .s "interactive"),
      ("interactive", .obj
        [ ("type", .s "button"), ("body", .obj [("text", jStrOrNull body)])
        , ("footer", jTextObjIfTruthy footer)
        , ("action", .obj [("buttons", jOpt button_data)]) ])])
  else if message_type = "single_product_message" then
    match product_data with
    | none => .error "TypeError: NoneType object is not subscriptable"
    | some pd =>
      match jLookup pd "product_retailer_id" with
      | none => .error "KeyError: product_retailer_id"
      | some prid =>
        .ok (.obj [mp, toF, ("type", .s "interactive"),
          ("interactive", .obj
            [ ("type", .s "product"), ("body", .obj [("text", jStrOrNull body)])
            , ("footer", jTextObjIfTruthy footer)
            , ("action", .obj [("catalog_id", jStrOrNull catalog_id), ("product_retailer_id", prid)]) ])])
  else if message_type = "multi_product_message" then
    .ok (.obj [mp, toF, ("type", .s "interactive"),
      ("interactive", .obj
        [ ("type", .s "product_list"), ("header", jHeaderTextIfTruthy header)
        , ("body", .obj [("text", jStrOrNull body)])
        , ("footer", jTextObjIfTruthy footer)
        , ("action", .obj [("catalog_id", jStrOrNull catalog_id), ("sections", jOpt sections)]) ])])
  else if message_type = "location_message" then
    .ok (.obj [mp, toF, ("type", .s "location"),
      ("location", .obj
        [ ("latitude", jFloatOrNull latitude), ("longitude", jFloatOrNull longitude)
        , ("name", jStrOrNull header), ("address", jStrOrNull body) ])])
  else if message_type = "location_request_message" then
    .ok (.obj [mp, toF, ("type", .s "interactive"),
      ("interactive", .obj
        [ ("type", .s "LOCATION_REQUEST_MESSAGE")
        , ("body", .obj [("text", jStrOrNull body)])
        , ("action", .obj [("name", .s "send_location")]) ])])
  else
    .ok (.obj [mp, toF, ("type", .s "interactive")])

/-- async_api_functions.send_bot_message: build the payload, POST it once;
non-200 responses and `aiohttp.ClientError` are logged and swallowed (the
coroutine returns None), any other exception propagates. -/
def send_bot_message (t : String → JVal → HttpResponse)
    (token phone_number_id contact message_type : String)
    (header body footer : Option String) (button_data : Option JVal)
    (product_data : Option (List (String × JVal))) (catalog_id : Option String)
    (sections : Option JVal) (latitude longitude : Option PyFloat)
    (media_id : Option String) : Except String Unit × List (String × JVal) :=
  match send_bot_payload contact message_type header body footer button_data
      product_data catalog_id sections latitude longitude media_id with
  | .error m => (.error m, [])
  | .ok p =>
    match t (providerUrl phone_number_id) p with
    | .exn m => (.error m, [(providerUrl phone_number_id, p)])
    | _ => (.ok (), [(providerUrl phone_number_id, p)])

namespace Main

/-- main.py's own user record, as consumed by main.fetch_user_data. -/
structure UserRec where
  user_id : String
  api_token : String
  is_active : Bool
  whatsapp_business_account_id : String
  phone_number_id : String
  register_app__app_id : String
  register_app__token : String
  coins : Int
deriving DecidableEq

/-- main.py's UserData pydantic model. -/
structure UserData where
  whatsapp_business_account_id : String
  phone_number_id : String
  register_app__app_id : String
  register_app__token : String
  coins : Int
deriving DecidableEq

/-- `detail` of an HTTPException raised by main.py's validation helpers. -/
inductive Detail where
  | text (s : String)
  | insufficientCoins (message : String) (available_coins : Int) (required_coins : Int)
deriving DecidableEq

/-- An HTTPException as raised by main.fetch_user_data / main.validate_coins. -/
structure HTTPExc where
  status_code : Nat
  detail : Detail
deriving DecidableEq

/-- main.fetch_user_data.  The remote GET of `https://wtsdealnow.com/api/users/`
is an external collaborator, modelled by its observed status code and user
list; the function's own logic (non-200 rejection, credential lookup, 401 on a
missing match, 403 on an inactive account) is from the source. -/
def fetch_user_data (fetchStatus : Nat) (users : List UserRec)
    (user_id api_token : String) : Except HTTPExc UserData :=
  if fetchStatus ≠ 200 then
    .error ⟨fetchStatus, .text "Failed to connect to user validation service"⟩
  else
    match users.find? fun u => u.user_id == user_id && u.api_token == api_token with
    | none =>
      .error ⟨401, .text "Failed to validate user credentials. Please check your user_id and api_token"⟩
    | some u =>
      if !u.is_active then
        .error ⟨403, .text "User account is not active. Please contact support"⟩
      else
        .ok ⟨u.whatsapp_business_account_id, u.phone_number_id,
          u.register_app__app_id, u.register_app__token, u.coins⟩

/-- main.validate_coins: raises a 402 HTTPException when
`required_contacts > available_coins`. -/
def validate_coins (available_coins : Int) (required_contacts : Int) :
    Except HTTPExc Unit :=
  if required_contacts > available_coins then
    .error ⟨402, .insufficientCoins "Insufficient coins. Please recharge your account"
      available_coins required_contacts⟩
  else .ok ()

/-- main.py's APIMessageRequest pydantic model. -/
structure APIMessageRequest where
  user_id : String
  api_token : String
  template_name : String
  language : String
  media_type : String
  media_id : Option String
  contact_list : List String
  variable_list : Option (List String)
deriving DecidableEq

/-- JSON envelope returned by the /send_sms_api/ endpoint. -/
inductive SmsApiResponse where
  | failedDetail (detail : Detail)
  | success (message : String) (contacts_processed : Nat) (remaining_coins : Int)
  | failedError (detail : String) (error : String)
deriving DecidableEq

/-- One run of the /send_sms_api/ orchestrator: the response envelope plus
whether the batch dispatcher and the completion notifier were ever invoked. -/
structure OrchestratorRun where
  response : SmsApiResponse
  dispatcher_invoked : Bool
  notifier_invoked : Bool
deriving DecidableEq

/-- main.send_sms_api (the /send_sms_api/ endpoint).  Step 1 and step 2 return
the failure envelope `{"status": "failed", "detail": e.detail}` on an
HTTPException and never reach dispatch.  Step 3 as written calls
`send_messages(meta_token=..., meta_phone_id=..., ...)`, but main.send_messages
has no such parameters, so the call raises a TypeError before the dispatcher
body can run; the blanket `except Exception` turns it into the generic failure
envelope.  main.send_messages never calls notify_user at all. -/
def send_sms_api (fetchStatus : Nat) (users : List UserRec)
    (request : APIMessageRequest) : OrchestratorRun :=
  match fetch_user_data fetchStatus users request.user_id request.api_token with
  | .error e => ⟨.failedDetail e.detail, false, false⟩
  | .ok user_data =>
    match validate_coins user_data.coins (request.contact_list.length : Int) with
    | .error e => ⟨.failedDetail e.detail, false, false⟩
    | .ok _ =>
      ⟨.failedError "Failed to send messages. Please try again later"
        "TypeError: send_messages() got an unexpected keyword argument meta_token",
        false, false⟩

/-- The batch sequence iterated by main.send_messages (main.py line 379):
`for batch in chunks(contact_list, 75)` — note the size is 75, not 78. -/
def send_messages_batches (contact_list : List String) : List (List String) :=
  chunks contact_list 75

end Main

/-! ### Laws of the chunk partition -/

theorem chunks_nil (size : Nat) : chunks ([] : List α) size = [] := by
  unfold chunks
  rcases size with _ | s
  · norm_num
  · have h : (List.length ([] : List α) + (s + 1) - 1) / (s + 1) = 0 :=
      Nat.div_eq_of_lt (by simp)
    rw [h]
    rfl

theorem chunks_cons (lst : List α) (size : Nat) (hne : lst ≠ []) (hs : 0 < size) :
    chunks lst size = lst.take size :: chunks (lst.drop size) size := by
  unfold chunks
  have hlen : 1 ≤ lst.length := by
    cases lst with
    | nil => exact absurd rfl hne
    | cons a l => simp
  have hcount : (lst.length + size - 1) / size = ((lst.drop size).length + size - 1) / size + 1 := by
    rw [List.length_drop]
    have h1 : lst.length + size - 1 = (lst.length - 1) + size := by omega
    by_cases hc : lst.length ≤ size
    · have h2 : lst.length - size + size - 1 = size - 1 := by omega
      rw [h1, Nat.add_div_right _ hs, h2]
      have h3 : (lst.length - 1) / size = 0 := Nat.div_eq_of_lt (by omega)
      have h0 : (size - 1) / size = 0 := Nat.div_eq_of_lt (by omega)
      omega
    · have h2 : lst.length - size + size - 1 = lst.length - 1 := by omega
      rw [h1, Nat.add_div_right _ hs, h2]
  rw [hcount, List.range_succ_eq_map]
  simp only [List.map_cons, List.map_map, Nat.zero_mul, List.drop_zero]
  refine congrArg (lst.take size :: ·) ?_
  apply List.map_congr_left
  intro i _
  simp only [Function.comp_apply, List.drop_drop]
  congr 2
  rw [Nat.succ_mul]
  omega

theorem chunks_length (lst : List α) (size : Nat) :
    (chunks lst size).length = (lst.length + size - 1) / size := by
  simp [chunks]

theorem chunks_getElem? (lst : List α) (size i : Nat)
    (h : i < (lst.length + size - 1) / size) :
    (chunks lst size)[i]? = some ((lst.drop (i * size)).take size) := by
  simp [chunks, List.getElem?_map, List.getElem?_range, h]

theorem chunks_flatten (size : Nat) (hs : 0 < size) (lst : List α) :
    (chunks lst size).flatten = lst := by
  have key : ∀ (n : Nat) (l : List α), l.length ≤ n → (chunks l size).flatten = l := by
    intro n
    induction n with
    | zero =>
      intro l hl
      have : l = [] := List.length_eq_zero.mp (Nat.le_zero.mp hl)
      subst this
      rw [chunks_nil]
      rfl
    | succ n ih =>
      intro l hl
      by_cases hne : l = []
      · subst hne; rw [chunks_nil]; rfl
      · rw [chunks_cons l size hne hs]
        have hlen : 1 ≤ l.length := by
          cases l with
          | nil => exact absurd rfl hne
          | cons a t => simp
        have : (l.drop size).length ≤ n := by
          rw [List.length_drop]; omega
        rw [List.flatten_cons, ih _ this, List.take_append_drop]
  exact key lst.length lst le_rfl
-- dispatcher lemmas (appended after the embeddings in the real file)

/-- Unfolding: a batch whose variable slice is absent dispatches to the plain
per-contact sends. -/
theorem pairContacts_none (cb : List String) :
    pairContacts cb none = .ok (cb.map fun c => (c, none)) := rfl

theorem dispatchBatches_nil (t : Transport) (cfg : SendCfg) :
    dispatchBatches t cfg [] = .ok [] := rfl

theorem dispatchBatches_cons (t : Transport) (cfg : SendCfg)
    (cb : List String) (vb : Option (List Row))
    (rest : List (List String × Option (List Row))) :
    dispatchBatches t cfg ((cb, vb) :: rest) =
      (pairContacts cb vb).bind fun pairs =>
        (dispatchBatches t cfg rest).bind fun restResults =>
          .ok ((pairs.map fun p => sendOne t cfg p.1 p.2) ++ restResults) := by
  cases h : pairContacts cb vb with
  | error e => simp only [dispatchBatches, h]; rfl
  | ok pairs =>
    cases h2 : dispatchBatches t cfg rest with
    | error e => simp only [dispatchBatches, h, h2]; rfl
    | ok r => simp only [dispatchBatches, h, h2]; rfl

/-- Dispatch over the csv-free batch stream is the pointwise map over the
whole contact list, in order. -/
theorem dispatch_none (t : Transport) (cfg : SendCfg) (cl : List String) :
    dispatchBatches t cfg ((chunks cl 78).map fun b => (b, none)) =
      .ok (cl.map fun c => sendOne t cfg c none) := by
  have key : ∀ (n : Nat) (l : List String), l.length ≤ n →
      dispatchBatches t cfg ((chunks l 78).map fun b => (b, none)) =
        .ok (l.map fun c => sendOne t cfg c none) := by
    intro n
    induction n with
    | zero =>
      intro l hl
      have : l = [] := List.length_eq_zero.mp (Nat.le_zero.mp hl)
      subst this
      rw [chunks_nil]
      rfl
    | succ n ih =>
      intro l hl
      by_cases hne : l = []
      · subst hne; rw [chunks_nil]; rfl
      · rw [chunks_cons l 78 hne (by norm_num), List.map_cons, dispatchBatches_cons,
          pairContacts_none]
        have hlen : 1 ≤ l.length := List.length_pos.mpr hne
        have hdrop : (l.drop 78).length ≤ n := by
          rw [List.length_drop]; omega
        rw [ih _ hdrop]
        simp only [Except.bind, List.map_map]
        rw [show ((fun p : String × Option Row => sendOne t cfg p.1 p.2) ∘ fun c => (c, none))
            = fun c => sendOne t cfg c none from rfl]
        rw [← List.map_append, List.take_append_drop]
  exact key cl.length cl le_rfl

/-- Dispatch over the zipped batch stream of two index-aligned lists is the
pointwise map over the zipped lists, in order. -/
theorem dispatch_zip_aligned (t : Transport) (cfg : SendCfg) (cl : List String)
    (rows : List Row) (hal : cl.length = rows.length) :
    dispatchBatches t cfg
        (((chunks cl 78).zip (chunks rows 78)).map fun p => (p.1, some p.2)) =
      .ok ((cl.zip rows).map fun p => sendOne t cfg p.1 (some p.2)) := by
  have key : ∀ (n : Nat) (l : List String) (r : List Row), l.length ≤ n →
      l.length = r.length →
      dispatchBatches t cfg
          (((chunks l 78).zip (chunks r 78)).map fun p => (p.1, some p.2)) =
        .ok ((l.zip r).map fun p => sendOne t cfg p.1 (some p.2)) := by
    intro n
    induction n with
    | zero =>
      intro l r hl he
      have h1 : l = [] := List.length_eq_zero.mp (Nat.le_zero.mp hl)
      have h2 : r = [] := List.length_eq_zero.mp (by omega)
      subst h1; subst h2
      rw [chunks_nil]
      rfl
    | succ n ih =>
      intro l r hl he
      by_cases hne : l = []
      · have h2 : r = [] := List.length_eq_zero.mp (by subst hne; simpa using he.symm)
        subst hne; subst h2
        rw [chunks_nil]
        rfl
      · have hrne : r ≠ [] := by
          intro h; subst h
          exact hne (List.length_eq_zero.mp (by simpa using he))
        rw [chunks_cons l 78 hne (by norm_num), chunks_cons r 78 hrne (by norm_num)]
        rw [List.zip_cons_cons, List.map_cons, dispatchBatches_cons]
        have hre : ¬ (r.take 78).isEmpty := by
          simp [List.isEmpty_iff, List.take_eq_nil_iff, hrne]
        have hlen78 : (l.take 78).length = (r.take 78).length := by
          simp [List.length_take, he]
        rw [show pairContacts (l.take 78) (some (r.take 78)) =
            .ok (((l.take 78).zip (r.take 78)).map fun p => (p.1, some p.2)) by
          simp only [pairContacts, hre, Bool.false_eq_true, if_false, hlen78, le_refl, if_true]]
        have hdrop : (l.drop 78).length ≤ n := by
          have : 1 ≤ l.length := List.length_pos.mpr hne
          rw [List.length_drop]; omega
        have hdrope : (l.drop 78).length = (r.drop 78).length := by
          simp [List.length_drop, he]
        rw [ih _ _ hdrop hdrope]
        simp only [Except.bind, List.map_map]
        rw [show ((fun p : String × Option Row => sendOne t cfg p.1 p.2) ∘
            fun p : String × Row => (p.1, some p.2))
            = fun p : String × Row => sendOne t cfg p.1 (some p.2) from rfl]
        rw [← List.map_append]
        rw [← List.zip_append hlen78, List.take_append_drop, List.take_append_drop]
  exact key cl.length cl rows le_rfl hal

/-- When the csv rows run out on a 78-boundary before the contacts do, the
zipped batch stream covers exactly the first `rows.length` contacts and
dispatch succeeds on just those. -/
theorem dispatch_zip_truncated (t : Transport) (cfg : SendCfg) (cl : List String)
    (rows : List Row) (hne : rows ≠ []) (hdvd : 78 ∣ rows.length)
    (hlt : rows.length < cl.length) :
    dispatchBatches t cfg
        (((chunks cl 78).zip (chunks rows 78)).map fun p => (p.1, some p.2)) =
      .ok (((cl.take rows.length).zip rows).map fun p => sendOne t cfg p.1 (some p.2)) := by
  have key : ∀ (n : Nat) (r : List Row) (l : List String), r.length ≤ n → r ≠ [] →
      78 ∣ r.length → r.length < l.length →
      dispatchBatches t cfg
          (((chunks l 78).zip (chunks r 78)).map fun p => (p.1, some p.2)) =
        .ok (((l.take r.length).zip r).map fun p => sendOne t cfg p.1 (some p.2)) := by
    intro n
    induction n with
    | zero =>
      intro r l hl hrne _ _
      exact absurd (List.length_eq_zero.mp (Nat.le_zero.mp hl)) hrne
    | succ n ih =>
      intro r l hl hrne hdvd hlt
      have hr78 : 78 ≤ r.length := by
        rcases hdvd with ⟨m, hm⟩
        have : 1 ≤ r.length := List.length_pos.mpr hrne
        omega
      have hlne : l ≠ [] := by
        intro h; subst h; simp at hlt
      rw [chunks_cons l 78 hlne (by norm_num), chunks_cons r 78 hrne (by norm_num)]
      rw [List.zip_cons_cons, List.map_cons, dispatchBatches_cons]
      have hre : ¬ (r.take 78).isEmpty := by
        simp [List.isEmpty_iff, List.take_eq_nil_iff, hrne]
      have hlen78 : (l.take 78).length = (r.take 78).length := by
        simp only [List.length_take]
        omega
      rw [show pairContacts (l.take 78) (some (r.take 78)) =
          .ok (((l.take 78).zip (r.take 78)).map fun p => (p.1, some p.2)) by
        simp only [pairContacts, hre, Bool.false_eq_true, if_false, hlen78, le_refl, if_true]]
      by_cases hstop : r.drop 78 = []
      · -- last rows chunk: exactly 78 rows remained
        have hr : r.length = 78 := by
          have := congrArg List.length hstop
          simp only [List.length_drop, List.length_nil] at this
          omega
        rw [hstop, chunks_nil, List.zip_nil_right, List.map_nil, dispatchBatches_nil]
        simp only [Except.bind, List.map_map]
        rw [show ((fun p : String × Option Row => sendOne t cfg p.1 p.2) ∘
            fun p : String × Row => (p.1, some p.2))
            = fun p : String × Row => sendOne t cfg p.1 (some p.2) from rfl]
        rw [List.append_nil, hr]
        rw [show r.take 78 = r from List.take_of_length_le (by omega)]
      · have hdrop : (r.drop 78).length ≤ n := by
          rw [List.length_drop]; omega
        have hdvd2 : 78 ∣ (r.drop 78).length := by
          rw [List.length_drop]
          exact Nat.dvd_sub' hdvd (dvd_refl 78)
        have hlt2 : (r.drop 78).length < (l.drop 78).length := by
          simp only [List.length_drop]
          omega
        rw [ih _ _ hdrop hstop hdvd2 hlt2]
        simp only [Except.bind, List.map_map]
        rw [show ((fun p : String × Option Row => sendOne t cfg p.1 p.2) ∘
            fun p : String × Row => (p.1, some p.2))
            = fun p : String × Row => sendOne t cfg p.1 (some p.2) from rfl]
        rw [← List.map_append]
        have hsplit : (l.take r.length).zip r =
            ((l.take 78).zip (r.take 78)) ++
              (((l.drop 78).take (r.drop 78).length).zip (r.drop 78)) := by
          rw [← List.zip_append hlen78, List.take_append_drop]
          congr 1
          rw [List.length_drop, ← List.take_add]
          congr 1
          omega
        rw [hsplit]
  exact key rows.length rows cl le_rfl hne hdvd hlt

/-- When the csv rows run out off a 78-boundary while more contact batches
remain, the last shared batch pairs a full 78-contact chunk with a shorter
variable chunk and the task-building loop raises an IndexError. -/
theorem dispatch_zip_indexError (t : Transport) (cfg : SendCfg) (cl : List String)
    (rows : List Row) (hne : rows ≠ []) (hndvd : ¬ 78 ∣ rows.length)
    (hlt : chunkCount78 rows.length < chunkCount78 cl.length) :
    dispatchBatches t cfg
        (((chunks cl 78).zip (chunks rows 78)).map fun p => (p.1, some p.2)) =
      .error "IndexError: list index out of range" := by
  have key : ∀ (n : Nat) (r : List Row) (l : List String), r.length ≤ n → r ≠ [] →
      ¬ 78 ∣ r.length → chunkCount78 r.length < chunkCount78 l.length →
      dispatchBatches t cfg
          (((chunks l 78).zip (chunks r 78)).map fun p => (p.1, some p.2)) =
        .error "IndexError: list index out of range" := by
    intro n
    induction n with
    | zero =>
      intro r l hl hrne _ _
      exact absurd (List.length_eq_zero.mp (Nat.le_zero.mp hl)) hrne
    | succ n ih =>
      intro r l hl hrne hndvd hlt
      have hr1 : 1 ≤ r.length := List.length_pos.mpr hrne
      have hlt' : (r.length + 77) / 78 < (l.length + 77) / 78 := hlt
      have hl79 : 79 ≤ l.length := by omega
      have hlne : l ≠ [] := by
        intro h; subst h
        simp at hl79
      rw [chunks_cons l 78 hlne (by norm_num), chunks_cons r 78 hrne (by norm_num)]
      rw [List.zip_cons_cons, List.map_cons, dispatchBatches_cons]
      have hre : ¬ (r.take 78).isEmpty := by
        simp [List.isEmpty_iff, List.take_eq_nil_iff, hrne]
      by_cases hshort : r.length < 78
      · -- the only rows chunk is shorter than the (full) contact chunk
        have hgt : ¬ (l.take 78).length ≤ (r.take 78).length := by
          simp only [List.length_take]
          omega
        rw [show pairContacts (l.take 78) (some (r.take 78)) =
            .error "IndexError: list index out of range" by
          simp only [pairContacts, hre, Bool.false_eq_true, if_false, hgt, if_false]]
        rfl
      · -- strip one full 78/78 batch and recurse
        have hlen78 : (l.take 78).length = (r.take 78).length := by
          simp only [List.length_take]
          omega
        rw [show pairContacts (l.take 78) (some (r.take 78)) =
            .ok (((l.take 78).zip (r.take 78)).map fun p => (p.1, some p.2)) by
          simp only [pairContacts, hre, Bool.false_eq_true, if_false, hlen78, le_refl, if_true]]
        have hdrop : (r.drop 78).length ≤ n := by
          rw [List.length_drop]; omega
        have hrdne : r.drop 78 ≠ [] := by
          intro h
          have hlen0 := congrArg List.length h
          simp only [List.length_drop, List.length_nil] at hlen0
          have hr78e : r.length = 78 := by omega
          exact hndvd (by rw [hr78e])
        have hndvd2 : ¬ 78 ∣ (r.drop 78).length := by
          rw [List.length_drop]
          intro hd
          rcases hd with ⟨m, hm⟩
          exact hndvd ⟨m + 1, by omega⟩
        have hlt2 : chunkCount78 (r.drop 78).length < chunkCount78 (l.drop 78).length := by
          have h1 : ((r.drop 78).length + 77) / 78 < ((l.drop 78).length + 77) / 78 := by
            simp only [List.length_drop]
            omega
          exact h1
        rw [ih _ _ hdrop hrdne hndvd2 hlt2]
        rfl
  exact key rows.length rows cl le_rfl hne hndvd hlt

/-! ### Claim C1: order preservation of the dispatcher -/

/-- The claim's alignment precondition: csv_variables is absent (None or
empty, both falsy in Python) or index-aligned with the contact list. -/
def csvAligned (cl : List String) (csv : Option (List Row)) : Prop :=
  match csv with
  | none => True
  | some rows => rows = [] ∨ rows.length = cl.length

/-- The csv row the dispatcher hands to the send for recipient index `i`. -/
def rowAt (csv : Option (List Row)) (i : Nat) : Option Row :=
  match csv with
  | some rows => if rows.isEmpty then none else rows[i]?
  | none => none

/-- C1: for every contact_list of length N (csv_variables absent or
index-aligned) and a deterministic transport, send_messages returns exactly N
result entries, and the i-th entry is the outcome of the send issued for the
i-th recipient of the original contact_list — submission order (batch order,
then per-batch issuance order) is preserved independently of completion
order, which the model reflects by collecting each batch's task results in
task order. -/
theorem send_messages_order_preservation (t : Transport)
    (token phone_number_id template_name language media_type : String)
    (media_id : Option String) (cl : List String) (vl : Option (List String))
    (csv : Option (List Row)) (hal : csvAligned cl csv) :
    ∃ res, send_messages t token phone_number_id template_name language media_type
        media_id cl vl csv = .ok res ∧
      res.length = cl.length ∧
      ∀ i, i < cl.length →
        res[i]? = some (sendOne t
          ⟨token, phone_number_id, template_name, language, media_type, media_id, vl⟩
          (cl.getD i "") (rowAt csv i)) := by
  set cfg : SendCfg :=
    ⟨token, phone_number_id, template_name, language, media_type, media_id, vl⟩ with hcfg
  cases csv with
  | none =>
    refine ⟨cl.map fun c => sendOne t cfg c none, ?_, ?_, ?_⟩
    · unfold send_messages batchPairs
      exact dispatch_none t cfg cl
    · simp
    · intro i hi
      simp [List.getElem?_map, List.getElem?_eq_getElem hi, rowAt,
        List.getD_eq_getElem cl "" hi]
  | some rows =>
    rcases hal with hnil | hlen
    · subst hnil
      refine ⟨cl.map fun c => sendOne t cfg c none, ?_, ?_, ?_⟩
      · unfold send_messages batchPairs
        simp only [List.isEmpty_nil, if_true]
        exact dispatch_none t cfg cl
      · simp
      · intro i hi
        simp [List.getElem?_map, List.getElem?_eq_getElem hi, rowAt,
          List.getD_eq_getElem cl "" hi]
    · by_cases hnil : rows = []
      · subst hnil
        refine ⟨cl.map fun c => sendOne t cfg c none, ?_, ?_, ?_⟩
        · unfold send_messages batchPairs
          simp only [List.isEmpty_nil, if_true]
          exact dispatch_none t cfg cl
        · simp
        · intro i hi
          simp [List.getElem?_map, List.getElem?_eq_getElem hi, rowAt,
            List.getD_eq_getElem cl "" hi]
      · refine ⟨(cl.zip rows).map fun p => sendOne t cfg p.1 (some p.2), ?_, ?_, ?_⟩
        · unfold send_messages batchPairs
          simp only [List.isEmpty_iff, hnil, if_false]
          exact dispatch_zip_aligned t cfg cl rows hlen.symm
        · simp [List.length_zip, hlen]
        · intro i hi
          have hir : i < rows.length := by omega
          have hiz : i < (cl.zip rows).length := by
            simp [List.length_zip]
            omega
          simp only [List.getElem?_map, List.getElem?_eq_getElem hiz,
            Option.map_some, List.getElem_zip]
          simp [rowAt, List.isEmpty_iff, hnil, List.getElem?_eq_getElem hir,
            List.getElem?_eq_getElem hi, List.getD_eq_getElem cl "" hi]

/-- Witness for C1 at a concrete aligned input. -/
theorem send_messages_order_preservation_witness :
    csvAligned ["a", "b"] none ∧
    ∃ res, send_messages (fun _ _ => .resp 200 "OK") "tk" "ph" "tm" "en" "TEXT"
        none ["a", "b"] none none = .ok res ∧ res.length = 2 := by
  constructor
  · trivial
  · obtain ⟨res, h1, h2, _⟩ := send_messages_order_preservation
      (fun _ _ => .resp 200 "OK") "tk" "ph" "tm" "en" "TEXT" none ["a", "b"] none none trivial
    exact ⟨res, h1, h2⟩

/-! ### Claim C2: the chunk partition -/

/-- C2 counterexample: main.send_messages (cited as one source of the claim)
partitions with size 75, not 78.  For a 79-recipient list it yields 2 batches
whose first (non-final) batch has size 75, refuting "every chunk except
possibly the last has size 78" for that dispatcher. -/
theorem main_chunk_size_counterexample :
    (List.replicate 79 "c").length > 78 ∧
    (Main.send_messages_batches (List.replicate 79 "c")).length = 2 ∧
    ((Main.send_messages_batches (List.replicate 79 "c")).getD 0 []).length = 75 ∧
    ((Main.send_messages_batches (List.replicate 79 "c")).getD 0 []).length ≠ 78 := by
  refine ⟨by decide, ?_, ?_, ?_⟩ <;> decide

/-- C2 (amended): the core dispatcher (async_chunk_functions.send_messages)
partitions with fixed maximum size 78 and satisfies all the stated laws —
concatenation restores the list, every chunk is non-empty of size ≤ 78, there
are exactly ⌈N/78⌉ chunks, for N > 78 every non-final chunk has size 78 and
the final chunk has size N mod 78 (or 78 when 78 divides N); main.py's own
send_messages instead partitions with size 75. -/
theorem chunk_partition_laws (cl : List String) :
    batchPairs cl none = ((chunks cl 78).map fun b => (b, none)) ∧
    (chunks cl 78).flatten = cl ∧
    (∀ b ∈ chunks cl 78, b.length ≤ 78 ∧ b ≠ []) ∧
    (chunks cl 78).length = (cl.length + 77) / 78 ∧
    (cl.length > 78 →
      (∀ i, i + 1 < (chunks cl 78).length → ((chunks cl 78).getD i []).length = 78) ∧
      ((chunks cl 78).getD ((chunks cl 78).length - 1) []).length =
        (if cl.length % 78 = 0 then 78 else cl.length % 78)) ∧
    Main.send_messages_batches cl = chunks cl 75 := by
  refine ⟨rfl, chunks_flatten 78 (by norm_num) cl, ?_, chunks_length cl 78, ?_, rfl⟩
  · intro b hb
    simp only [chunks, List.mem_map, List.mem_range] at hb
    obtain ⟨i, hi, rfl⟩ := hb
    constructor
    · simp only [List.length_take]
      omega
    · apply List.length_pos.mp
      simp only [List.length_take, List.length_drop]
      omega
  · intro hN
    constructor
    · intro i hi
      rw [chunks_length] at hi
      rw [List.getD_eq_getElem?_getD,
        chunks_getElem? cl 78 i (by omega)]
      simp only [Option.getD_some, List.length_take, List.length_drop]
      omega
    · rw [chunks_length, List.getD_eq_getElem?_getD,
        chunks_getElem? cl 78 _ (by omega)]
      simp only [Option.getD_some, List.length_take, List.length_drop]
      by_cases hmod : cl.length % 78 = 0
      · rw [if_pos hmod]
        omega
      · rw [if_neg hmod]
        omega

/-- Witness for C2 at a concrete 100-recipient list: 2 chunks, final chunk of
size 100 mod 78 = 22. -/
theorem chunk_partition_laws_witness :
    (chunks (List.replicate 100 "x") 78).length = 2 ∧
    ((chunks (List.replicate 100 "x") 78).getD
      ((chunks (List.replicate 100 "x") 78).length - 1) []).length = 22 := by
  obtain ⟨-, -, -, hlen, hlast, -⟩ := chunk_partition_laws (List.replicate 100 "x")
  have h2 := (hlast (by decide)).2
  constructor
  · rw [hlen]; decide
  · rw [h2]; decide

/-! ### Claims C3, C4, C9: the message sender -/

/-- The results list of a dispatcher run ([] when the run raised). -/
def entries : Except String (List ResultEntry) → List ResultEntry
  | .ok l => l
  | .error _ => []

/-- Mock transport for the 5-recipient scenario: HTTP 401 for recipient c3
only, HTTP 200 otherwise. -/
def c3Transport : Transport := fun _ p =>
  if p.«to» = "c3" then .resp 401 "Unauthorized" else .resp 200 "OK"

/-- C3: with 5 recipients and a transport failing recipient #3 with HTTP 401,
send_messages yields 5 outcomes; outcome[2] is failed with status code 401 and
the response body, the other four are success — no sibling send of the batch
is cancelled or altered by the failure. -/
theorem single_failure_is_isolated :
    (entries (send_messages c3Transport "tok" "pid" "tmpl" "en" "TEXT" none
        ["c1", "c2", "c3", "c4", "c5"] none none)).length = 5 ∧
    (entries (send_messages c3Transport "tok" "pid" "tmpl" "en" "TEXT" none
        ["c1", "c2", "c3", "c4", "c5"] none none)).map entryStatus =
      ["success", "success", "failed", "success", "success"] ∧
    (entries (send_messages c3Transport "tok" "pid" "tmpl" "en" "TEXT" none
        ["c1", "c2", "c3", "c4", "c5"] none none))[2]? =
      some (.ok (.failed "c3" (.status 401) "Unauthorized")) := by
  refine ⟨by decide, by decide, ?_⟩
  rfl

/-- C4: every invocation of send_message issues exactly one POST to the
provider's messaging path for the phone-number id; HTTP 200 yields a success
outcome capturing the response body, any other status yields a failed outcome
carrying the numeric status code and the body text, a client error yields a
failed outcome with the distinct error_code "client_error" carrying the
stringified fault. -/
theorem send_message_contract (t : Transport)
    (token phone_number_id template_name language media_type : String)
    (media_id : Option String) (contact : String) (vl : Option (List String))
    (csv : Option Row) :
    (send_message t token phone_number_id template_name language media_type
        media_id contact vl csv).2 =
      [⟨providerUrl phone_number_id,
        send_message_payload template_name language media_type media_id contact vl csv⟩] ∧
    (∀ b, t (providerUrl phone_number_id)
        (send_message_payload template_name language media_type media_id contact vl csv) =
          .resp 200 b →
      (send_message t token phone_number_id template_name language media_type
          media_id contact vl csv).1 =
        .ok (.success (effContact contact csv)
          (msgContextId template_name language media_type) b)) ∧
    (∀ s b, s ≠ 200 → t (providerUrl phone_number_id)
        (send_message_payload template_name language media_type media_id contact vl csv) =
          .resp s b →
      (send_message t token phone_number_id template_name language media_type
          media_id contact vl csv).1 =
        .ok (.failed (effContact contact csv) (.status s) b)) ∧
    (∀ m, t (providerUrl phone_number_id)
        (send_message_payload template_name language media_type media_id contact vl csv) =
          .clientError m →
      (send_message t token phone_number_id template_name language media_type
          media_id contact vl csv).1 =
        .ok (.failed (effContact contact csv) .clientError m)) := by
  refine ⟨?_, ?_, ?_, ?_⟩
  · simp only [send_message]
    cases t (providerUrl phone_number_id)
        (send_message_payload template_name language media_type media_id contact vl csv) with
    | resp s b => dsimp only; split <;> rfl
    | clientError m => rfl
    | exn m => rfl
  · intro b hb
    simp only [send_message, hb]
    rfl
  · intro s b hs hb
    simp only [send_message, hb]
    simp [hs]
    rfl
  · intro m hm
    simp only [send_message, hm]
    rfl

/-- Witness for C4 at a concrete 200-transport. -/
theorem send_message_contract_witness :
    (send_message (fun _ _ => .resp 200 "ok") "tk" "ph" "tm" "en" "TEXT"
        none "c" none none).1 =
      .ok (.success "c" (msgContextId "tm" "en" "TEXT") "ok") ∧
    (send_message (fun _ _ => .resp 200 "ok") "tk" "ph" "tm" "en" "TEXT"
        none "c" none none).2 =
      [⟨providerUrl "ph", send_message_payload "tm" "en" "TEXT" none "c" none none⟩] := by
  have h := send_message_contract (fun _ _ => .resp 200 "ok") "tk" "ph" "tm" "en" "TEXT"
    none "c" none none
  exact ⟨h.2.1 "ok" rfl, h.1⟩

/-- C9: when csv_variable_list is absent (None or empty) and variables is None
or empty, send_otp_message raises (TypeError or IndexError on `variables[0]`
while building the button component) before issuing any HTTP request, instead
of returning an outcome record. -/
theorem send_otp_crashes_without_variables (t : Transport)
    (token phone_number_id template_name language media_type : String)
    (media_id : Option String) (contact : String)
    (vl : Option (List String)) (csv : Option Row)
    (hcsv : csv = none ∨ csv = some []) (hvl : vl = none ∨ vl = some []) :
    (send_otp_message t token phone_number_id template_name language media_type
        media_id contact vl csv).2 = [] ∧
    ∃ m, (send_otp_message t token phone_number_id template_name language media_type
        media_id contact vl csv).1 = .error m := by
  rcases hcsv with rfl | rfl <;> rcases hvl with rfl | rfl <;> exact ⟨rfl, _, rfl⟩

/-- Witness for C9 at a concrete input. -/
theorem send_otp_crashes_without_variables_witness :
    (send_otp_message (fun _ _ => .resp 200 "OK") "tk" "ph" "tm" "en" "TEXT"
        none "c" none none).2 = [] ∧
    ∃ m, (send_otp_message (fun _ _ => .resp 200 "OK") "tk" "ph" "tm" "en" "TEXT"
        none "c" none none).1 = .error m :=
  send_otp_crashes_without_variables (fun _ _ => .resp 200 "OK") "tk" "ph" "tm" "en"
    "TEXT" none "c" none none (Or.inl rfl) (Or.inl rfl)

/-! ### Claim C5: unexpected errors during a send -/

/-- Whether a results entry is an outcome dictionary (rather than a captured
exception object). -/
def isOutcomeEntry : ResultEntry → Bool
  | .ok _ => true
  | .error _ => false

/-- Mock transport that raises an unexpected (non-ClientError) exception for
recipient c2 only. -/
def boomTransport : Transport := fun _ p =>
  if p.«to» = "c2" then .exn "boom" else .resp 200 "OK"

/-- C5 counterexample: in send_messages, a send task raising an unexpected
error yields a results entry that is the captured exception object itself —
not an outcome dictionary, and in particular not one with status "error"
(that shape exists only in validate_nums).  The remaining sends still
complete (3 entries for 3 recipients). -/
theorem unexpected_error_counterexample :
    (entries (send_messages boomTransport "tok" "pid" "tmpl" "en" "TEXT" none
        ["c1", "c2", "c3"] none none))[1]? = some (.error "boom") ∧
    ((entries (send_messages boomTransport "tok" "pid" "tmpl" "en" "TEXT" none
        ["c1", "c2", "c3"] none none))[1]?).map isOutcomeEntry = some false ∧
    ((entries (send_messages boomTransport "tok" "pid" "tmpl" "en" "TEXT" none
        ["c1", "c2", "c3"] none none))[1]?).map entryStatus ≠ some "error" ∧
    (entries (send_messages boomTransport "tok" "pid" "tmpl" "en" "TEXT" none
        ["c1", "c2", "c3"] none none)).length = 3 := by
  refine ⟨rfl, rfl, ?_, by decide⟩
  intro h
  have hx : ((entries (send_messages boomTransport "tok" "pid" "tmpl" "en" "TEXT" none
      ["c1", "c2", "c3"] none none))[1]?).map entryStatus = some "exception" := rfl
  rw [hx] at h
  simp at h

/-- C5 (amended): a send task raising an unexpected error contributes exactly
one results entry — the captured exception carrying the error's text (not a
status="error" outcome) — and dispatch of the remaining batches is not
aborted; the status="error" outcome shape arises only in validate_nums, whose
blanket exception handler maps any raised exception to such a dictionary. -/
theorem unexpected_error_recorded (t : Transport)
    (token phone_number_id template_name language media_type : String)
    (media_id : Option String) (cl : List String) (vl : Option (List String))
    (i : Nat) (m : String) (hi : i < cl.length)
    (hex : sendOne t
      ⟨token, phone_number_id, template_name, language, media_type, media_id, vl⟩
      (cl.getD i "") none = .error m) :
    (∃ res, send_messages t token phone_number_id template_name language media_type
        media_id cl vl none = .ok res ∧
      res.length = cl.length ∧
      res[i]? = some (.error m) ∧
      (res[i]?).map entryStatus = some "exception") ∧
    (∀ (tv : String → TextPayload → HttpResponse) (tok pid c mt em : String),
      tv (providerUrl pid) ⟨c, false, mt⟩ = .exn em →
      validate_nums tv tok pid c mt = .error em ∧
      (validate_nums tv tok pid c mt).status = "error") := by
  constructor
  · set cfg : SendCfg :=
      ⟨token, phone_number_id, template_name, language, media_type, media_id, vl⟩ with hcfg
    refine ⟨cl.map fun c => sendOne t cfg c none, ?_, by simp, ?_, ?_⟩
    · unfold send_messages batchPairs
      exact dispatch_none t cfg cl
    · rw [List.getElem?_map, List.getElem?_eq_getElem hi]
      rw [List.getD_eq_getElem cl "" hi] at hex
      simp [hex]
    · rw [List.getElem?_map, List.getElem?_eq_getElem hi]
      rw [List.getD_eq_getElem cl "" hi] at hex
      simp [hex, entryStatus]
  · intro tv tok pid c mt em hexn
    have h1 : validate_nums tv tok pid c mt = .error em := by
      simp only [validate_nums]
      rw [hexn]
    refine ⟨h1, ?_⟩
    rw [h1]
    rfl

/-- Witness for C5 at a concrete raising transport and recipient index 1. -/
theorem unexpected_error_recorded_witness :
    ∃ res, send_messages boomTransport "tok" "pid" "tmpl" "en" "TEXT" none
        ["c1", "c2", "c3"] none none = .ok res ∧
      res.length = 3 ∧ res[1]? = some (.error "boom") := by
  obtain ⟨⟨res, h1, h2, h3, -⟩, -⟩ := unexpected_error_recorded boomTransport
    "tok" "pid" "tmpl" "en" "TEXT" none ["c1", "c2", "c3"] none 1 "boom"
    (by decide) rfl
  exact ⟨res, h1, h2, h3⟩

/-! ### Claim C6: the completion notifier -/

/-- C6: notify_user issues exactly one POST to the fixed webhook URL with
exactly the envelope `{status: "completed", unique_id, report_id}`; the
per-recipient results are not embedded (the run is independent of them); and
it never raises — every webhook response or exception is swallowed. -/
theorem notify_user_contract (t : NotifyPayload → HttpResponse)
    (results results2 : List ResultEntry) (unique_id : String)
    (report_id : Option String) :
    notify_user t results unique_id report_id =
      (.ok (), [⟨WEBHOOK_URL, ⟨"completed", unique_id, report_id⟩⟩]) ∧
    notify_user t results unique_id report_id =
      notify_user t results2 unique_id report_id := by
  have h : ∀ (r : List ResultEntry), notify_user t r unique_id report_id =
      (.ok (), [⟨WEBHOOK_URL, ⟨"completed", unique_id, report_id⟩⟩]) := by
    intro r
    cases ht : t ⟨"completed", unique_id, report_id⟩ <;>
      simp [notify_user, ht]
  exact ⟨h results, (h results).trans (h results2).symm⟩

/-! ### Claim C7: validation rejection blocks dispatch -/

/-- C7: when credential validation (401 missing match / 403 inactive, and any
non-200 from the user service) or coin validation (402 when required contacts
strictly exceed available coins) rejects the job, /send_sms_api/ returns the
failure envelope `{status: "failed", detail}` carrying that HTTPException's
detail, and neither the dispatcher nor the notifier is ever invoked. -/
theorem validation_rejection_blocks_dispatch (fetchStatus : Nat)
    (users : List Main.UserRec) (req : Main.APIMessageRequest) :
    (∀ e, Main.fetch_user_data fetchStatus users req.user_id req.api_token = .error e →
      Main.send_sms_api fetchStatus users req = ⟨.failedDetail e.detail, false, false⟩) ∧
    (∀ ud, Main.fetch_user_data fetchStatus users req.user_id req.api_token = .ok ud →
      (req.contact_list.length : Int) > ud.coins →
      Main.send_sms_api fetchStatus users req =
        ⟨.failedDetail (.insufficientCoins "Insufficient coins. Please recharge your account"
          ud.coins req.contact_list.length), false, false⟩) := by
  constructor
  · intro e he
    unfold Main.send_sms_api
    rw [he]
  · intro ud hud hcoins
    simp only [Main.send_sms_api, hud]
    simp only [Main.validate_coins]
    rw [if_pos hcoins]

/-- Witness for C7: an inactive account is rejected with the 403 detail and no
dispatch or notification happens. -/
theorem validation_rejection_blocks_dispatch_witness :
    Main.send_sms_api 200 [⟨"u1", "tk1", false, "w", "p", "a", "t", 50⟩]
        ⟨"u1", "tk1", "tm", "en", "TEXT", none, ["c1"], none⟩ =
      ⟨.failedDetail (.text "User account is not active. Please contact support"),
        false, false⟩ := by
  exact (validation_rejection_blocks_dispatch 200
    [⟨"u1", "tk1", false, "w", "p", "a", "t", 50⟩]
    ⟨"u1", "tk1", "tm", "en", "TEXT", none, ["c1"], none⟩).1
    ⟨403, .text "User account is not active. Please contact support"⟩ rfl

/-! ### Claim C8: the duplicate "video" branch -/

/-- The payload a send_bot_payload run produced (null when it raised). -/
def exVal : Except String JVal → JVal
  | .ok v => v
  | .error _ => .nullv

/-- C8 counterexample: for message_type "video" the payload produced is the
EARLIER branch's plain video payload — `{"type": "video", "video": {...}}`
with no "interactive" field — not the later branch's interactive-video
payload: in an if/elif chain the first matching branch wins, so the earlier
branch shadows the later one, the reverse of the claim. -/
theorem video_branch_counterexample :
    send_bot_payload "cont" "video" none (some "cap") none none none none none
        none none (some "med") =
      .ok (.obj [("messaging_product", .s "whatsapp"), ("to", .s "cont"),
        ("type", .s "video"),
        ("video", .obj [("id", .s "med"), ("caption", .s "cap")])]) ∧
    hasKey (exVal (send_bot_payload "cont" "video" none (some "cap") none none
      none none none none none (some "med"))) "interactive" = false ∧
    hasKey (interactive_video_payload "cont" (some "cap") (some "med"))
      "interactive" = true ∧
    exVal (send_bot_payload "cont" "video" none (some "cap") none none none
        none none none none (some "med")) ≠
      interactive_video_payload "cont" (some "cap") (some "med") := by
  refine ⟨rfl, rfl, rfl, ?_⟩
  intro h
  have h1 : hasKey (exVal (send_bot_payload "cont" "video" none (some "cap")
      none none none none none none none (some "med"))) "interactive" = false := rfl
  have h2 : hasKey (interactive_video_payload "cont" (some "cap") (some "med"))
      "interactive" = true := rfl
  rw [h, h2] at h1
  exact Bool.noConfusion h1

/-- C8 (amended): send_bot_message has two branches guarded by
message_type == "video"; the EARLIER branch shadows the LATER one (Python
takes the first matching arm of an if/elif chain), so for every "video" call
the payload produced is the earlier branch's plain video payload and the
later interactive-video branch is dead code. -/
theorem video_branch_earlier_wins (contact : String)
    (header body footer : Option String) (button_data : Option JVal)
    (product_data : Option (List (String × JVal))) (catalog_id : Option String)
    (sections : Option JVal) (latitude longitude : Option PyFloat)
    (media_id : Option String) :
    send_bot_payload contact "video" header body footer button_data product_data
        catalog_id sections latitude longitude media_id =
      .ok (.obj [("messaging_product", .s "whatsapp"), ("to", .s contact),
        ("type", .s "video"),
        ("video", .obj [("id", jStrOrNull media_id), ("caption", jIfTruthy body)])]) ∧
    hasKey (exVal (send_bot_payload contact "video" header body footer button_data
      product_data catalog_id sections latitude longitude media_id)) "interactive" = false := by
  exact ⟨rfl, rfl⟩

/-! ### Claim C10: csv_variables with fewer chunks than the contact list -/

/-- All-200 transport. -/
def okTransport : Transport := fun _ _ => .resp 200 "OK"

/-- C10 counterexample: 79 contacts (2 chunks) with a single csv row (1 chunk)
satisfy the claim's precondition, but send_messages does not silently skip the
excess batch — it raises an IndexError while pairing the first batch (78
contacts against 1 variable row) and produces no outcome entries at all. -/
theorem csv_shortfall_counterexample :
    chunkCount78 (List.replicate 79 "c").length = 2 ∧
    chunkCount78 ([["v"]] : List Row).length = 1 ∧
    send_messages okTransport "tok" "pid" "tmpl" "en" "TEXT" none
        (List.replicate 79 "c") none (some [["v"]]) =
      .error "IndexError: list index out of range" := by
  refine ⟨by decide, by decide, ?_⟩
  rfl

/-- C10 (amended): with a non-empty csv_variables whose chunk count is smaller
than the contact list's, Python's zip truncates the batch stream to
min(⌈|contacts|/78⌉, ⌈|csv|/78⌉) = ⌈|csv|/78⌉ shared batches.  When 78 divides
|csv| those batches align and the call succeeds with outcomes exactly for the
first |csv| contacts, in order — the excess contact batches are silently
skipped, with no send, no outcome entry and no error for them.  When 78 does
not divide |csv|, the last shared batch pairs a full 78-contact chunk with a
shorter variable chunk and send_messages raises an IndexError, producing no
results at all. -/
theorem csv_shortfall_behavior (t : Transport)
    (token phone_number_id template_name language media_type : String)
    (media_id : Option String) (cl : List String) (vl : Option (List String))
    (rows : List Row) (hne : rows ≠ [])
    (hlt : chunkCount78 rows.length < chunkCount78 cl.length) :
    (78 ∣ rows.length →
      send_messages t token phone_number_id template_name language media_type
          media_id cl vl (some rows) =
        .ok (((cl.take rows.length).zip rows).map fun p =>
          sendOne t ⟨token, phone_number_id, template_name, language, media_type,
            media_id, vl⟩ p.1 (some p.2))) ∧
    (¬ 78 ∣ rows.length →
      send_messages t token phone_number_id template_name language media_type
          media_id cl vl (some rows) =
        .error "IndexError: list index out of range") := by
  constructor
  · intro hdvd
    unfold send_messages batchPairs
    simp only [List.isEmpty_iff, hne, if_false]
    have hlen : rows.length < cl.length := by
      have h1 : (rows.length + 77) / 78 < (cl.length + 77) / 78 := hlt
      have h2 : 1 ≤ rows.length := List.length_pos.mpr hne
      rcases hdvd with ⟨k, hk⟩
      omega
    exact dispatch_zip_truncated t _ cl rows hne hdvd hlen
  · intro hndvd
    unfold send_messages batchPairs
    simp only [List.isEmpty_iff, hne, if_false]
    exact dispatch_zip_indexError t _ cl rows hne hndvd hlt

/-- Witness for C10 on an aligned shortfall: 79 contacts, 78 csv rows — one
shared batch of 78 outcomes, the 79th contact silently skipped. -/
theorem csv_shortfall_behavior_witness :
    ∃ res, send_messages okTransport "tok" "pid" "tmpl" "en" "TEXT" none
        (List.replicate 79 "c") none (some (List.replicate 78 ["v"])) = .ok res ∧
      res.length = 78 := by
  have h := (csv_shortfall_behavior okTransport "tok" "pid" "tmpl" "en" "TEXT" none
    (List.replicate 79 "c") none (List.replicate 78 ["v"])
    (by decide) (by decide)).1 (by decide)
  refine ⟨_, h, ?_⟩
  simp
